import Mathlib

/-!
# chrome-pilot — shallow embedding of the command transport and correlation layer

This file embeds, in Lean, the parts of the chrome-pilot repository that its
specification makes claims about:

* the framed byte pipe of `NativeMessenger` (`src/server/src/native-host.ts`),
* the pending-request correlation tables on both sides
  (`NativeMessenger.handleMessage` / `sendCommand`, and
  `handleWebSocketMessage` / `sendCommandToServer` in
  `src/extension/background-websocket.js`),
* the extension-side outbound queue, reconnect supervisor and keep-alive
  bookkeeping of `background-websocket.js`,
* the helper-script injection registry (`injectHelperScript` and the
  `chrome.tabs.onRemoved` listener),
* the socket bookkeeping of `ChromeWebSocketServer`.

JavaScript/TypeScript values are modelled as follows: byte buffers are
`List Nat` (each entry one byte), JSON payloads are kept opaque (a frame's
body is its byte list; a response's `data` field is an opaque `Nat`),
`Map`s keyed by strings are `List String` / association lists, timers are
explicit events in small transition systems, and promise settlement is an
explicit `SettleOutcome`.
-/

namespace ChromePilot

/-! ### Message framing — `NativeMessenger` (src/server/src/native-host.ts)

`sendMessage` writes a 4-byte little-endian length prefix followed by the
UTF-8 JSON bytes; `readMessage` runs once per stdin `readable` event, reads
everything available into a **local** string (no state survives between
events), and decodes at most one frame from it. -/

/-- `Buffer.readUInt32LE(0)`: little-endian 32-bit read of the first four
bytes of a byte list. -/
def readUInt32LE (b : List Nat) : Nat :=
  b.getD 0 0 + 256 * b.getD 1 0 + 65536 * b.getD 2 0 + 16777216 * b.getD 3 0

/-- `Buffer.alloc(4)` + `writeUInt32LE(n, 0)`: the four little-endian bytes
of `n` (mod 2^32). -/
def writeUInt32LE (n : Nat) : List Nat :=
  [n % 256, n / 256 % 256, n / 65536 % 256, n / 16777216 % 256]

/-- `NativeMessenger.sendMessage` (native-host.ts:111-126): the bytes put on
the wire for one message, with the JSON serialization of the message kept
opaque as the byte list `payload`. -/
def sendMessageBytes (payload : List Nat) : List Nat :=
  writeUInt32LE payload.length ++ payload

/-- `NativeMessenger.readMessage` (native-host.ts:51-90), one `readable`
event. `input` is the concatenation of every chunk available on stdin at
that moment; the function is stateless across events (the accumulator
`input` is a local variable). Returns the body bytes of the single frame it
extracts, or `none` when it decodes nothing (fewer than 4 bytes buffered,
or the declared length not fully present).  Bytes it does not decode are
discarded when the function returns. -/
def readMessageEvent (input : List Nat) : Option (List Nat) :=
  if input.length < 4 then none
  else
    let messageLength := readUInt32LE (input.take 4)
    let messageBuffer := (input.drop 4).take messageLength
    if messageBuffer.length < messageLength then none
    else some messageBuffer

/-! ### Wire messages and promise settlement -/

/-- The response-relevant fields of a wire message
(`{id, success, data, error}`). `data` is opaque (any JSON value) and is
modelled as a `Nat`; `error` is `null` or a string. -/
structure WireMsg where
  id : String
  success : Bool
  data : Nat
  error : Option String
deriving DecidableEq

/-- How a pending promise is settled. -/
inductive SettleOutcome
  | resolved (data : Nat)
  | rejected (err : String)
deriving DecidableEq

/-- What `NativeMessenger.handleMessage` does with an inbound message. -/
inductive HandleEffect
  | settled (o : SettleOutcome)
  /-- The `else` branch: `this.emit("message", message)` — the message is
  re-dispatched as a new inbound request event (no listener for this event
  is registered anywhere in the repository). -/
  | emittedAsRequest
deriving DecidableEq

/-- JS `e || dflt` for an error field: `null` and the empty string are
falsy. -/
def jsOrError (e : Option String) (dflt : String) : String :=
  match e with
  | some s => if s = "" then dflt else s
  | none => dflt

/-- JS truthiness of an error field (`null` and `""` are falsy). -/
def errTruthy (e : Option String) : Bool :=
  match e with
  | some s => decide (s ≠ "")
  | none => false

/-- `NativeMessenger.handleMessage` (native-host.ts:92-109).  The handler
table is the list of pending ids.  `message.id && handlers.has(message.id)`:
if the id is truthy (non-empty) and pending, clear the timer, delete the
entry and settle — resolve with `data` when `success`, else reject with
`error || "Unknown error"`.  Otherwise the message is emitted as a new
request. -/
def nmHandleMessage (handlers : List String) (m : WireMsg) :
    List String × HandleEffect :=
  if m.id ≠ "" ∧ m.id ∈ handlers then
    (handlers.erase m.id,
     HandleEffect.settled
       (if m.success then SettleOutcome.resolved m.data
        else SettleOutcome.rejected (jsOrError m.error "Unknown error")))
  else
    (handlers, HandleEffect.emittedAsRequest)

/-- The 30-second timeout callback registered by `NativeMessenger.sendCommand`
(native-host.ts:138-141): unconditionally delete the table entry and reject
with a timeout error. -/
def nmTimeoutFire (handlers : List String) (id action : String) :
    List String × SettleOutcome :=
  (handlers.erase id,
   SettleOutcome.rejected ("Request timeout for action: " ++ action))

/-- What `handleWebSocketMessage` does with an inbound message. -/
inductive ExtEffect
  | settled (o : SettleOutcome)
  /-- `handleServerCommand(message)`: the message is treated as a command
  from the server. -/
  | dispatchedAsServerCommand
  | ignored
deriving DecidableEq

/-- `handleWebSocketMessage` (background-websocket.js:127-141).  If the id
is truthy and pending: delete the entry, then reject when `message.error`
is truthy, else resolve with `message.data` (note: the `success` field is
not consulted).  A message with a truthy id that is not pending is handed
to `handleServerCommand`. -/
def handleWebSocketMessage (handlers : List String) (m : WireMsg) :
    List String × ExtEffect :=
  if m.id ≠ "" ∧ m.id ∈ handlers then
    (handlers.erase m.id,
     ExtEffect.settled
       (if errTruthy m.error then
          SettleOutcome.rejected (m.error.getD "")
        else SettleOutcome.resolved m.data))
  else if m.id ≠ "" then
    (handlers, ExtEffect.dispatchedAsServerCommand)
  else
    (handlers, ExtEffect.ignored)

/-! ### Single-settlement transition systems (claim about PendingRequest)

One pending request is tracked through the interleaving of its response
arrival and its deadline-timer firing.  `present` is membership of its id in
the handler table, `timerActive` whether its 30 s timer is still armed, and
the counters record how often resolve / reject fired and how often the
table entry was actually removed. -/

structure PendState where
  present : Bool
  timerActive : Bool
  resolvedCount : Nat
  rejectedCount : Nat
  removedCount : Nat
deriving DecidableEq

/-- State right after `sendCommand` registered the handler and armed the
timer. -/
def pendInit : PendState :=
  ⟨true, true, 0, 0, 0⟩

/-- The two events that can concern one pending request: the matching
response arriving, and the deadline timer firing.  `success` abstracts
which settle branch the response selects. -/
inductive PendEvent
  | response (success : Bool)
  | timerFire
deriving DecidableEq

/-- Server side (`NativeMessenger`).  Response handling
(native-host.ts:93-104) checks table membership, calls
`clearTimeout(handler.timeout)`, deletes the entry and settles; the timeout
callback (native-host.ts:138-141) deletes and rejects unconditionally — it
can only run while the timer is still armed, because a matched response
cancels it. -/
def nmStep (s : PendState) : PendEvent → PendState
  | PendEvent.response ok =>
    if s.present then
      { present := false
        timerActive := false
        resolvedCount := s.resolvedCount + (if ok then 1 else 0)
        rejectedCount := s.rejectedCount + (if ok then 0 else 1)
        removedCount := s.removedCount + 1 }
    else s
  | PendEvent.timerFire =>
    { present := false
      timerActive := false
      resolvedCount := s.resolvedCount
      rejectedCount := s.rejectedCount + 1
      removedCount := s.removedCount + (if s.present then 1 else 0) }

/-- Extension side (`background-websocket.js`).  `sendCommandToServer`
never stores or cancels its timer, so the 30 s timeout always eventually
fires; the timeout callback (background-websocket.js:206-211) first checks
`handlers.has(messageId)` and only then deletes and rejects.  Response
handling (background-websocket.js:128-136) deletes the entry and settles
but leaves the timer armed. -/
def extPendStep (s : PendState) : PendEvent → PendState
  | PendEvent.response ok =>
    if s.present then
      { present := false
        timerActive := s.timerActive
        resolvedCount := s.resolvedCount + (if ok then 1 else 0)
        rejectedCount := s.rejectedCount + (if ok then 0 else 1)
        removedCount := s.removedCount + 1 }
    else s
  | PendEvent.timerFire =>
    if s.present then
      { present := false
        timerActive := false
        resolvedCount := s.resolvedCount
        rejectedCount := s.rejectedCount + 1
        removedCount := s.removedCount + 1 }
    else
      { s with timerActive := false }

/-- A trace is admissible for a step function when every `timerFire` event
occurs while the timer is still armed (a one-shot timer fires at most once,
and never after `clearTimeout`). -/
def timerValidB (step : PendState → PendEvent → PendState) :
    PendState → List PendEvent → Bool
  | _, [] => true
  | s, e :: rest =>
    (if e = PendEvent.timerFire then s.timerActive else true) &&
      timerValidB step (step s e) rest

/-- Invariant for the server-side pending request: either still pending
with the timer armed and nothing settled, or gone, settled exactly once,
removed exactly once, with the timer disarmed. -/
def nmInv (s : PendState) : Prop :=
  (s.present = true ∧ s.timerActive = true ∧ s.resolvedCount = 0 ∧
      s.rejectedCount = 0 ∧ s.removedCount = 0) ∨
  (s.present = false ∧ s.timerActive = false ∧
      s.resolvedCount + s.rejectedCount = 1 ∧ s.removedCount = 1)

/-- Invariant for the extension-side pending request: the timer may outlive
the settlement there, so the second disjunct does not constrain it. -/
def extInv (s : PendState) : Prop :=
  (s.present = true ∧ s.timerActive = true ∧ s.resolvedCount = 0 ∧
      s.rejectedCount = 0 ∧ s.removedCount = 0) ∨
  (s.present = false ∧ s.resolvedCount + s.rejectedCount = 1 ∧
      s.removedCount = 1)

/-! ### `ChromeWebSocketServer.sendCommand` guard (native-host.ts:329-357) -/

/-- Result of a `sendCommand` call on the server side. -/
inductive SendResult
  | rejectedImmediately (err : String)
  | handlerRegisteredAndSent
deriving DecidableEq

/-- `ChromeWebSocketServer.sendCommand` (native-host.ts:329-357).  `socket`
is `none` when `this.extensionSocket` is `null`, `some b` when a socket is
stored with `b` recording `readyState === WebSocket.OPEN`.  When no open
socket is stored the promise is rejected immediately; otherwise a handler
is registered and the message sent. -/
def wsServerSendCommand (socket : Option Bool) (handlers : List String)
    (msgId : String) : List String × SendResult :=
  if socket ≠ some true then
    (handlers, SendResult.rejectedImmediately "Extension not connected")
  else
    (handlers ++ [msgId], SendResult.handlerRegisteredAndSent)

/-! ### Extension command client and outbound queue
(src/extension/background-websocket.js) -/

/-- An outbound command message (its `params` are irrelevant here). -/
structure Msg where
  id : String
  action : String
deriving DecidableEq

/-- The module-level state of `background-websocket.js` that the command
client touches: `isConnected`, whether `ws` exists with
`readyState === OPEN`, `messageQueue`, `handlers` (pending ids), plus
transcripts: the messages passed to `ws.send` in order, the ids whose
promises were rejected, and how often `connectWebSocket()` was invoked. -/
structure ExtClient where
  connected : Bool
  wsOpen : Bool
  queue : List Msg
  handlers : List String
  sent : List Msg
  rejectedIds : List String
  connectCalls : Nat
deriving DecidableEq

/-- Fresh service-worker state: disconnected, empty queue and tables. -/
def extInit : ExtClient :=
  ⟨false, false, [], [], [], [], 0⟩

/-- `sendCommandToServer` (background-websocket.js:184-213), minus the
timeout it also schedules (see `commandTimeout`): register the handler,
then transmit when connected with an open socket, otherwise push onto
`messageQueue` and call `connectWebSocket()` when `!isConnected`. -/
def sendCommandToServer (st : ExtClient) (m : Msg) : ExtClient :=
  let st1 := { st with handlers := st.handlers ++ [m.id] }
  if st1.connected ∧ st1.wsOpen then
    { st1 with sent := st1.sent ++ [m] }
  else
    let st2 := { st1 with queue := st1.queue ++ [m] }
    if st2.connected = false then
      { st2 with connectCalls := st2.connectCalls + 1 }
    else st2

/-- The 30-second timeout scheduled by `sendCommandToServer`
(background-websocket.js:206-211): if the handler is still registered,
delete it and reject the promise; it never touches `messageQueue`. -/
def commandTimeout (st : ExtClient) (id : String) : ExtClient :=
  if id ∈ st.handlers then
    { st with handlers := st.handlers.erase id
              rejectedIds := st.rejectedIds ++ [id] }
  else st

/-- `processMessageQueue` (background-websocket.js:157-162): while the
queue is non-empty and the connection is open, shift the front message and
send it.  Returns (messages sent in order, remaining queue). -/
def drainQueue (connected wsOpen : Bool) : List Msg → List Msg × List Msg
  | [] => ([], [])
  | m :: rest =>
    if connected ∧ wsOpen then
      (m :: (drainQueue connected wsOpen rest).1,
       (drainQueue connected wsOpen rest).2)
    else ([], m :: rest)

/-- `ws.onopen` (background-websocket.js:26-39), restricted to the command
client's state: mark connected and drain the queue via
`processMessageQueue()`. -/
def wsOnOpen (st : ExtClient) : ExtClient :=
  let st1 := { st with connected := true, wsOpen := true }
  { st1 with
    sent := st1.sent ++ (drainQueue st1.connected st1.wsOpen st1.queue).1
    queue := (drainQueue st1.connected st1.wsOpen st1.queue).2 }

/-! ### Connection supervisor — reconnect backoff and persistent retry
(src/extension/background-websocket.js) -/

/-- `maxReconnectAttempts` (background-websocket.js:8). -/
def maxReconnectAttempts : Nat := 5

/-- `persistentReconnectInterval` (background-websocket.js:10), in ms. -/
def persistentReconnectInterval : Nat := 10000

/-- Supervisor state: `isConnected`, `reconnectAttempts`, whether
`persistentReconnectTimer` is set, plus transcripts of the bounded-retry
delays passed to `setTimeout` and of `connectWebSocket()` invocations. -/
structure Supervisor where
  connected : Bool
  reconnectAttempts : Nat
  persistentActive : Bool
  scheduledRetryDelays : List Nat
  connectCalls : Nat
deriving DecidableEq

/-- Supervisor state when the service worker starts. -/
def supInit : Supervisor :=
  ⟨false, 0, false, [], 0⟩

/-- `ws.onclose` (background-websocket.js:67-82): mark disconnected; if
`reconnectAttempts < maxReconnectAttempts`, increment the counter and
schedule a retry after `2000 * reconnectAttempts` ms; otherwise start the
persistent reconnection interval. -/
def wsOnClose (s : Supervisor) : Supervisor :=
  let s1 := { s with connected := false }
  if s1.reconnectAttempts < maxReconnectAttempts then
    { s1 with
      reconnectAttempts := s1.reconnectAttempts + 1
      scheduledRetryDelays :=
        s1.scheduledRetryDelays ++ [2000 * (s1.reconnectAttempts + 1)] }
  else
    { s1 with persistentActive := true }

/-- `ws.onopen` (background-websocket.js:26-39), restricted to the
supervisor's state: connected, `reconnectAttempts = 0`, and
`stopPersistentReconnection()`. -/
def supOnOpen (s : Supervisor) : Supervisor :=
  { s with connected := true, reconnectAttempts := 0,
           persistentActive := false }

/-- One tick of the `setInterval` callback installed by
`startPersistentReconnection` (background-websocket.js:103-114): while not
connected, reset `reconnectAttempts` to 0 and call `connectWebSocket()`;
once connected, clear the interval. -/
def persistentTick (s : Supervisor) : Supervisor :=
  if s.connected = false then
    { s with reconnectAttempts := 0, connectCalls := s.connectCalls + 1 }
  else
    { s with persistentActive := false }

/-! ### Helper-script injection registry
(src/extension/background-websocket.js:307-337) -/

/-- The key `` `${tabId}-${scriptName}` `` used by `injectHelperScript`. -/
def scriptKey (tabId : Nat) (scriptName : String) : String :=
  toString tabId ++ "-" ++ scriptName

/-- JS `String.prototype.startsWith`, on the character sequences. -/
def jsStartsWith (s pre : String) : Bool :=
  pre.data.isPrefixOf s.data

/-- `injectedScripts.has(key)` on the association-list model of the map. -/
def hasKey (r : List (String × Nat)) (k : String) : Bool :=
  r.any (fun kv => kv.1 = k)

/-- Observable outcome of one `injectHelperScript` call. -/
inductive InjectResult
  /-- The early `return` when the key is already recorded: no install
  operation is attempted. -/
  | alreadyInjected
  /-- `chrome.scripting.executeScript` ran and succeeded; the key was
  recorded. -/
  | installed
  /-- `chrome.scripting.executeScript` threw; nothing was recorded and the
  error was re-thrown. -/
  | failed
deriving DecidableEq

/-- `injectHelperScript` (background-websocket.js:310-328).  `installOk`
abstracts whether the `chrome.scripting.executeScript` call succeeds, and
`now` is `Date.now()`. -/
def injectHelperScript (r : List (String × Nat)) (tabId : Nat)
    (scriptName : String) (installOk : Bool) (now : Nat) :
    List (String × Nat) × InjectResult :=
  let k := scriptKey tabId scriptName
  if hasKey r k then
    (r, InjectResult.alreadyInjected)
  else if installOk then
    (r ++ [(k, now)], InjectResult.installed)
  else
    (r, InjectResult.failed)

/-- The `chrome.tabs.onRemoved` listener (background-websocket.js:331-337):
delete every key that starts with `` `${tabId}-` ``. -/
def onTabRemoved (r : List (String × Nat)) (tabId : Nat) :
    List (String × Nat) :=
  r.filter (fun kv => !(jsStartsWith kv.1 (toString tabId ++ "-")))

/-! ### `ChromeWebSocketServer` socket bookkeeping
(native-host.ts:263-308, 418-423) -/

/-- The server's view: the stored `extensionSocket` (by an abstract socket
identity) and which sockets are currently open. -/
structure WSServerState where
  extensionSocket : Option Nat
  openSockets : List Nat
deriving DecidableEq

/-- Server state before any connection. -/
def wssInit : WSServerState :=
  ⟨none, []⟩

/-- The `wss.on("connection")` handler (native-host.ts:269-277): store the
new socket in `this.extensionSocket` unconditionally. -/
def acceptConnection (s : WSServerState) (ws : Nat) : WSServerState :=
  { s with extensionSocket := some ws, openSockets := s.openSockets ++ [ws] }

/-- The per-socket `ws.on("close")` handler (native-host.ts:289-293): set
`this.extensionSocket = null` unconditionally, whichever socket closed. -/
def socketClosed (s : WSServerState) (ws : Nat) : WSServerState :=
  { s with extensionSocket := none
           openSockets := s.openSockets.filter (fun x => x ≠ ws) }

/-- `isExtensionConnected` (native-host.ts:418-423): a socket is stored and
its `readyState` is `OPEN`. -/
def isExtensionConnected (s : WSServerState) : Bool :=
  match s.extensionSocket with
  | some ws => ws ∈ s.openSockets
  | none => false

/-! ## Theorems -/

/-! ### Helper lemmas -/

/-- `readUInt32LE` on a concrete four-byte list. -/
theorem readUInt32LE_cons (b0 b1 b2 b3 : Nat) :
    readUInt32LE [b0, b1, b2, b3] = b0 + 256 * b1 + 65536 * b2 + 16777216 * b3 :=
  rfl

/-- Writing then reading a 32-bit little-endian length is the identity below
2^32. -/
theorem readUInt32LE_writeUInt32LE (n : Nat) (h : n < 4294967296) :
    readUInt32LE (writeUInt32LE n) = n := by
  rw [writeUInt32LE, readUInt32LE_cons]
  omega

/-- A frame delivered whole in a single read event decodes back to its
payload: the pure round trip of the spec holds when no split occurs. -/
theorem readMessageEvent_roundtrip (p : List Nat) (hp : p.length < 4294967296) :
    readMessageEvent (sendMessageBytes p) = some p := by
  have ht : (writeUInt32LE p.length ++ p).take 4 = writeUInt32LE p.length := by
    rw [show (4 : Nat) = (writeUInt32LE p.length).length from rfl, List.take_left]
  have hd : (writeUInt32LE p.length ++ p).drop 4 = p := by
    rw [show (4 : Nat) = (writeUInt32LE p.length).length from rfl, List.drop_left]
  have hlen : (writeUInt32LE p.length ++ p).length = 4 + p.length := by
    simp [writeUInt32LE]
    omega
  rw [readMessageEvent, sendMessageBytes]
  rw [if_neg (by omega)]
  simp only [ht, hd, readUInt32LE_writeUInt32LE p.length hp, List.take_length]
  rw [if_neg (by omega)]

/-- A character list is a `isPrefixOf`-prefix of itself followed by
anything. -/
theorem isPrefixOf_self_append (l m : List Char) : l.isPrefixOf (l ++ m) = true := by
  induction l with
  | nil => simp [List.isPrefixOf]
  | cons c cs ih => simp [List.isPrefixOf, ih]

/-- Every injection-registry key for a tab starts with that tab's purge
pattern `` `${tabId}-` ``. -/
theorem jsStartsWith_scriptKey (tabId : Nat) (s : String) :
    jsStartsWith (scriptKey tabId s) (toString tabId ++ "-") = true := by
  rw [jsStartsWith, scriptKey, String.data_append]
  exact isPrefixOf_self_append _ _

/-- After the `chrome.tabs.onRemoved` purge for a tab, no key of that tab is
left in the registry. -/
theorem hasKey_onTabRemoved (r : List (String × Nat)) (tabId : Nat) (s : String) :
    hasKey (onTabRemoved r tabId) (scriptKey tabId s) = false := by
  rw [hasKey, onTabRemoved, List.any_eq_false]
  rintro ⟨key, v⟩ hmem
  rw [List.mem_filter] at hmem
  obtain ⟨-, hpred⟩ := hmem
  rw [Bool.not_eq_true'] at hpred
  simp only [decide_eq_true_eq]
  intro hkey
  rw [hkey] at hpred
  rw [jsStartsWith_scriptKey tabId s] at hpred
  cases hpred

/-- One step of the server-side pending-request system preserves its
invariant, provided the timer only fires while armed. -/
theorem nmStep_preserves (s : PendState) (e : PendEvent) (hs : nmInv s)
    (hv : e = PendEvent.timerFire → s.timerActive = true) :
    nmInv (nmStep s e) := by
  rcases hs with ⟨h1, h2, h3, h4, h5⟩ | ⟨h1, h2, h3, h4⟩
  · cases e with
    | response ok => cases ok <;> simp [nmStep, nmInv, h1, h2, h3, h4, h5]
    | timerFire => simp [nmStep, nmInv, h1, h3, h4, h5]
  · cases e with
    | response ok => simp [nmStep, nmInv, h1, h2, h3, h4]
    | timerFire => exact absurd (hv rfl) (by simp [h2])

/-- One step of the extension-side pending-request system preserves its
invariant. -/
theorem extPendStep_preserves (s : PendState) (e : PendEvent) (hs : extInv s) :
    extInv (extPendStep s e) := by
  rcases hs with ⟨h1, h2, h3, h4, h5⟩ | ⟨h1, h2, h3⟩
  · cases e with
    | response ok => cases ok <;> simp [extPendStep, extInv, h1, h2, h3, h4, h5]
    | timerFire => simp [extPendStep, extInv, h1, h3, h4, h5]
  · cases e with
    | response ok => simp [extPendStep, extInv, h1, h2, h3]
    | timerFire => simp [extPendStep, extInv, h1, h2, h3]

/-- The server-side invariant holds after any admissible trace. -/
theorem nmRun_inv (tr : List PendEvent) :
    ∀ s : PendState, nmInv s → timerValidB nmStep s tr = true →
      nmInv (tr.foldl nmStep s) := by
  induction tr with
  | nil => intro s hs _; simpa using hs
  | cons e rest ih =>
    intro s hs hv
    simp only [timerValidB, Bool.and_eq_true] at hv
    refine ih (nmStep s e) (nmStep_preserves s e hs ?_) hv.2
    intro he
    subst he
    simpa using hv.1

/-- The extension-side invariant holds after any admissible trace. -/
theorem extRun_inv (tr : List PendEvent) :
    ∀ s : PendState, extInv s → timerValidB extPendStep s tr = true →
      extInv (tr.foldl extPendStep s) := by
  induction tr with
  | nil => intro s hs _; simpa using hs
  | cons e rest ih =>
    intro s hs hv
    simp only [timerValidB, Bool.and_eq_true] at hv
    exact ih (extPendStep s e) (extPendStep_preserves s e hs) hv.2

/-- Issuing any sequence of commands while disconnected only appends them,
in order, to the outbound queue; nothing is transmitted and the connection
flag stays down. -/
theorem sendWhileDisconnected (msgs : List Msg) :
    ∀ st : ExtClient, st.connected = false →
      (msgs.foldl sendCommandToServer st).connected = false ∧
      (msgs.foldl sendCommandToServer st).queue = st.queue ++ msgs ∧
      (msgs.foldl sendCommandToServer st).sent = st.sent := by
  induction msgs with
  | nil => intro st h; exact ⟨h, by simp, rfl⟩
  | cons m rest ih =>
    intro st h
    rw [List.foldl_cons]
    have h1 : (sendCommandToServer st m).connected = false := by
      simp [sendCommandToServer, h]
    have h3 : (sendCommandToServer st m).queue = st.queue ++ [m] := by
      simp [sendCommandToServer, h]
    have h4 : (sendCommandToServer st m).sent = st.sent := by
      simp [sendCommandToServer, h]
    obtain ⟨a, c, d⟩ := ih (sendCommandToServer st m) h1
    refine ⟨a, ?_, by rw [d, h4]⟩
    rw [c, h3]
    simp

/-- `processMessageQueue` with an open connection drains the whole queue in
order. -/
theorem drainQueue_all (q : List Msg) : drainQueue true true q = (q, []) := by
  induction q with
  | nil => rfl
  | cons m rest ih => simp [drainQueue, ih]

/-! ### Claim theorems -/

/-- C1: for every pending request, on both the server side
(`NativeMessenger`) and the extension side (`sendCommandToServer`), any
admissible interleaving of the response arrival and the deadline-timer
firing — admissible meaning a one-shot timer fires only while armed, and
complete meaning the deadline has passed (the timer is no longer armed at
the end) — settles the promise exactly once (resolve and reject fire once
in total) and removes the pending-table entry exactly once. -/
theorem single_settlement (tr1 tr2 : List PendEvent)
    (h1 : timerValidB nmStep pendInit tr1 = true)
    (h1c : (tr1.foldl nmStep pendInit).timerActive = false)
    (h2 : timerValidB extPendStep pendInit tr2 = true)
    (h2c : (tr2.foldl extPendStep pendInit).timerActive = false) :
    ((tr1.foldl nmStep pendInit).resolvedCount +
        (tr1.foldl nmStep pendInit).rejectedCount = 1 ∧
      (tr1.foldl nmStep pendInit).removedCount = 1) ∧
    ((tr2.foldl extPendStep pendInit).resolvedCount +
        (tr2.foldl extPendStep pendInit).rejectedCount = 1 ∧
      (tr2.foldl extPendStep pendInit).removedCount = 1) := by
  have H1 := nmRun_inv tr1 pendInit (Or.inl ⟨rfl, rfl, rfl, rfl, rfl⟩) h1
  have H2 := extRun_inv tr2 pendInit (Or.inl ⟨rfl, rfl, rfl, rfl, rfl⟩) h2
  constructor
  · rcases H1 with ⟨-, hta, -, -, -⟩ | ⟨-, -, hsum, hrem⟩
    · rw [h1c] at hta; cases hta
    · exact ⟨hsum, hrem⟩
  · rcases H2 with ⟨hp, hta, -, -, -⟩ | ⟨-, hsum, hrem⟩
    · rw [h2c] at hta; cases hta
    · exact ⟨hsum, hrem⟩

/-- Witness for C1: on the server, the timer fires and a late response
follows; on the extension, the response arrives first and the never-
cancelled timer fires afterwards.  Both interleavings settle once and
remove the entry once. -/
theorem single_settlement_witness :
    (([PendEvent.timerFire, PendEvent.response true].foldl nmStep pendInit).resolvedCount +
        ([PendEvent.timerFire, PendEvent.response true].foldl nmStep pendInit).rejectedCount = 1 ∧
      ([PendEvent.timerFire, PendEvent.response true].foldl nmStep pendInit).removedCount = 1) ∧
    (([PendEvent.response true, PendEvent.timerFire].foldl extPendStep pendInit).resolvedCount +
        ([PendEvent.response true, PendEvent.timerFire].foldl extPendStep pendInit).rejectedCount = 1 ∧
      ([PendEvent.response true, PendEvent.timerFire].foldl extPendStep pendInit).removedCount = 1) :=
  single_settlement [PendEvent.timerFire, PendEvent.response true]
    [PendEvent.response true, PendEvent.timerFire]
    (by decide) (by decide) (by decide) (by decide)

/-- C2: the framed-pipe reader decodes a frame delivered whole in one read,
but it is not the accumulator the spec requires: it keeps no buffer across
read events, so when the 4-byte header of an 8-byte payload is split after
two bytes, the first read decodes nothing (fewer than 4 bytes) and its
bytes are lost, the second read misreads body bytes as a huge length and
also decodes nothing — the message is never decoded; and when two frames
arrive in one read, only the first is decoded and the second is
discarded. -/
theorem readMessage_drops_split_and_extra_frames :
    readMessageEvent (sendMessageBytes [97, 98, 99, 100, 101, 102, 103, 104])
      = some [97, 98, 99, 100, 101, 102, 103, 104] ∧
    readMessageEvent ((sendMessageBytes [97, 98, 99, 100, 101, 102, 103, 104]).take 2)
      = none ∧
    readMessageEvent ((sendMessageBytes [97, 98, 99, 100, 101, 102, 103, 104]).drop 2)
      = none ∧
    readMessageEvent (sendMessageBytes [97, 98, 99, 100, 101, 102, 103, 104] ++
        sendMessageBytes [105, 106, 107])
      = some [97, 98, 99, 100, 101, 102, 103, 104] := by
  decide

/-- C3: on the server side, when the deadline fires the promise is rejected
with a timeout error and the entry is removed; a response bearing that id
arriving afterwards finds the id no longer in the table (membership is
checked before acting), leaves the table unchanged and settles nothing —
it is logged and falls through to the `emit` branch, for which no listener
is registered anywhere in the repository. -/
theorem timeout_then_late_response (handlers : List String) (id action : String)
    (r : WireMsg) (hnd : handlers.Nodup) (hid : r.id = id) :
    (nmTimeoutFire handlers id action).2
      = SettleOutcome.rejected ("Request timeout for action: " ++ action) ∧
    id ∉ (nmTimeoutFire handlers id action).1 ∧
    nmHandleMessage (nmTimeoutFire handlers id action).1 r
      = ((nmTimeoutFire handlers id action).1, HandleEffect.emittedAsRequest) := by
  subst hid
  have hne : r.id ∉ handlers.erase r.id := hnd.not_mem_erase
  refine ⟨rfl, hne, ?_⟩
  rw [nmHandleMessage, nmTimeoutFire]
  rw [if_neg]
  rintro ⟨-, hmem⟩
  exact hne hmem

/-- Witness for C3 at a concrete pending table. -/
theorem timeout_then_late_response_witness :
    (nmTimeoutFire ["x1"] "x1" "navigate").2
      = SettleOutcome.rejected ("Request timeout for action: " ++ "navigate") ∧
    "x1" ∉ (nmTimeoutFire ["x1"] "x1" "navigate").1 ∧
    nmHandleMessage (nmTimeoutFire ["x1"] "x1" "navigate").1
        (WireMsg.mk "x1" true 5 none)
      = ((nmTimeoutFire ["x1"] "x1" "navigate").1, HandleEffect.emittedAsRequest) :=
  timeout_then_late_response ["x1"] "x1" "navigate" (WireMsg.mk "x1" true 5 none)
    (by decide) rfl

/-- C4 counterexample: on the server side there is no outbound queue —
`ChromeWebSocketServer.sendCommand` called while no open extension socket
is stored immediately rejects the caller's future with "Extension not
connected", so a send while not Connected is not queued non-fatally as the
claim states. -/
theorem wsServerSendCommand_rejects_when_disconnected :
    wsServerSendCommand none [] "x1"
      = ([], SendResult.rejectedImmediately "Extension not connected") := by
  decide

/-- C4 amended: on the extension side a send while not Connected is indeed
non-fatal — the message is appended to the outbound queue, nothing is
rejected, and a connect attempt is triggered; on the server side
(`ChromeWebSocketServer.sendCommand`) a send while the extension socket is
not open immediately rejects the caller's future with "Extension not
connected". -/
theorem send_while_disconnected_behavior (st : ExtClient) (m : Msg)
    (socket : Option Bool) (handlers : List String)
    (hconn : st.connected = false) (hsock : socket ≠ some true) :
    (sendCommandToServer st m).queue = st.queue ++ [m] ∧
    (sendCommandToServer st m).sent = st.sent ∧
    (sendCommandToServer st m).rejectedIds = st.rejectedIds ∧
    (sendCommandToServer st m).connectCalls = st.connectCalls + 1 ∧
    wsServerSendCommand socket handlers m.id
      = (handlers, SendResult.rejectedImmediately "Extension not connected") := by
  rw [wsServerSendCommand, if_pos hsock]
  simp [sendCommandToServer, hconn]

/-- Witness for C4 (amended) at the initial extension state and a server
with no stored socket. -/
theorem send_while_disconnected_behavior_witness :
    (sendCommandToServer extInit (Msg.mk "x1" "navigate")).queue
      = extInit.queue ++ [Msg.mk "x1" "navigate"] ∧
    (sendCommandToServer extInit (Msg.mk "x1" "navigate")).sent = extInit.sent ∧
    (sendCommandToServer extInit (Msg.mk "x1" "navigate")).rejectedIds
      = extInit.rejectedIds ∧
    (sendCommandToServer extInit (Msg.mk "x1" "navigate")).connectCalls
      = extInit.connectCalls + 1 ∧
    wsServerSendCommand none [] (Msg.mk "x1" "navigate").id
      = ([], SendResult.rejectedImmediately "Extension not connected") :=
  send_while_disconnected_behavior extInit (Msg.mk "x1" "navigate") none []
    rfl (by decide)

/-- C5: for a key not yet recorded, a first successful
`injectHelperScript(t, s)` performs the install; an immediately following
call is a no-op (no second install, registry unchanged) whatever the
install oracle would do; a failing install records nothing and propagates
the failure; and after the `onRemoved` purge for the tab the key is gone,
so a following call performs a fresh install. -/
theorem injection_idempotent_and_purged (r : List (String × Nat)) (tabId : Nat)
    (s : String) (ok2 : Bool) (t1 t2 t3 : Nat)
    (hfresh : hasKey r (scriptKey tabId s) = false) :
    (injectHelperScript r tabId s true t1).2 = InjectResult.installed ∧
    injectHelperScript (injectHelperScript r tabId s true t1).1 tabId s ok2 t2
      = ((injectHelperScript r tabId s true t1).1, InjectResult.alreadyInjected) ∧
    injectHelperScript r tabId s false t1 = (r, InjectResult.failed) ∧
    hasKey (onTabRemoved (injectHelperScript r tabId s true t1).1 tabId)
      (scriptKey tabId s) = false ∧
    (injectHelperScript
        (onTabRemoved (injectHelperScript r tabId s true t1).1 tabId)
        tabId s true t3).2 = InjectResult.installed := by
  have hbool : hasKey r (scriptKey tabId s) ≠ true := by rw [hfresh]; decide
  have hfirst : injectHelperScript r tabId s true t1
      = (r ++ [(scriptKey tabId s, t1)], InjectResult.installed) := by
    rw [injectHelperScript]
    simp [hfresh]
  have hsecondKey : hasKey (r ++ [(scriptKey tabId s, t1)]) (scriptKey tabId s) = true := by
    rw [hasKey, List.any_append]
    simp [List.any]
  have hpurge := hasKey_onTabRemoved (r ++ [(scriptKey tabId s, t1)]) tabId s
  refine ⟨by rw [hfirst], ?_, ?_, ?_, ?_⟩
  · rw [hfirst]
    rw [injectHelperScript]
    simp [hsecondKey]
  · rw [injectHelperScript]
    simp [hfresh]
  · rw [hfirst]
    exact hpurge
  · rw [hfirst]
    rw [injectHelperScript]
    simp [hpurge]

/-- Witness for C5: empty registry, tab 5, `click-helper.js`. -/
theorem injection_idempotent_and_purged_witness :
    (injectHelperScript [] 5 "click-helper.js" true 10).2 = InjectResult.installed ∧
    injectHelperScript (injectHelperScript [] 5 "click-helper.js" true 10).1
        5 "click-helper.js" false 20
      = ((injectHelperScript [] 5 "click-helper.js" true 10).1,
         InjectResult.alreadyInjected) ∧
    injectHelperScript [] 5 "click-helper.js" false 10
      = ([], InjectResult.failed) ∧
    hasKey (onTabRemoved (injectHelperScript [] 5 "click-helper.js" true 10).1 5)
      (scriptKey 5 "click-helper.js") = false ∧
    (injectHelperScript
        (onTabRemoved (injectHelperScript [] 5 "click-helper.js" true 10).1 5)
        5 "click-helper.js" true 30).2 = InjectResult.installed :=
  injection_idempotent_and_purged [] 5 "click-helper.js" false 10 20 30 rfl

/-- C6: any sequence of commands issued from the fresh (disconnected)
extension state sits in the outbound queue in issue order with nothing
transmitted, and the `onopen` drain then transmits exactly that sequence in
that order, emptying the queue — strict FIFO. -/
theorem queue_fifo (msgs : List Msg) :
    (msgs.foldl sendCommandToServer extInit).queue = msgs ∧
    (msgs.foldl sendCommandToServer extInit).sent = [] ∧
    (wsOnOpen (msgs.foldl sendCommandToServer extInit)).sent = msgs ∧
    (wsOnOpen (msgs.foldl sendCommandToServer extInit)).queue = [] := by
  obtain ⟨hc, hq, hs⟩ := sendWhileDisconnected msgs extInit rfl
  have hq0 : (msgs.foldl sendCommandToServer extInit).queue = msgs := by
    rw [hq]; rfl
  have hs0 : (msgs.foldl sendCommandToServer extInit).sent = [] := by
    rw [hs]; rfl
  refine ⟨hq0, hs0, ?_, ?_⟩
  · rw [wsOnOpen]
    simp [drainQueue_all, hq0, hs0]
  · rw [wsOnOpen]
    simp [drainQueue_all, hq0]

/-- C7: from the fresh supervisor state, five consecutive failures each
schedule a bounded retry with delays 2000·1 … 2000·5 ms — strictly
increasing — and do not start persistent mode; when the bounded retries are
exhausted the next failure switches to the persistent retry (period
10000 ms), whose tick while still disconnected keeps attempting to connect
(resetting the attempt counter) and keeps the interval alive; a successful
connect resets the attempt counter to 0 and stops the persistent retry. -/
theorem backoff_escalation :
    ((wsOnClose^[5]) supInit).scheduledRetryDelays
      = [2000, 4000, 6000, 8000, 10000] ∧
    List.Pairwise (· < ·) ((wsOnClose^[5]) supInit).scheduledRetryDelays ∧
    ((wsOnClose^[5]) supInit).persistentActive = false ∧
    ((wsOnClose^[6]) supInit).persistentActive = true ∧
    ((wsOnClose^[6]) supInit).scheduledRetryDelays
      = ((wsOnClose^[5]) supInit).scheduledRetryDelays ∧
    persistentReconnectInterval = 10000 ∧
    (∀ s : Supervisor, s.connected = false →
        (persistentTick s).connectCalls = s.connectCalls + 1 ∧
        (persistentTick s).reconnectAttempts = 0 ∧
        (persistentTick s).persistentActive = s.persistentActive) ∧
    (∀ s : Supervisor,
        (supOnOpen s).reconnectAttempts = 0 ∧
        (supOnOpen s).persistentActive = false ∧
        (supOnOpen s).connected = true) := by
  refine ⟨by decide, by decide, by decide, by decide, by decide, rfl, ?_, ?_⟩
  · intro s h
    rw [persistentTick, if_pos h]
    exact ⟨rfl, rfl, rfl⟩
  · intro s
    exact ⟨rfl, rfl, rfl⟩

/-- Witness for C7: one persistent tick from a concrete disconnected state
with the interval running. -/
theorem backoff_escalation_witness :
    (persistentTick (Supervisor.mk false 3 true [] 7)).connectCalls
      = (Supervisor.mk false 3 true [] 7).connectCalls + 1 ∧
    (persistentTick (Supervisor.mk false 3 true [] 7)).reconnectAttempts = 0 ∧
    (persistentTick (Supervisor.mk false 3 true [] 7)).persistentActive
      = (Supervisor.mk false 3 true [] 7).persistentActive :=
  backoff_escalation.2.2.2.2.2.2.1 (Supervisor.mk false 3 true [] 7) rfl

/-- C8 counterexample: the extension-side client settles on the truthiness
of the `error` field, not on `success` — a matched response with
`success:false` but no `error` text is *resolved* with its data, where the
claim requires a rejection. -/
theorem extension_resolves_failed_response :
    (WireMsg.mk "x1" false 7 none).success = false ∧
    handleWebSocketMessage ["x1"] (WireMsg.mk "x1" false 7 none)
      = ([], ExtEffect.settled (SettleOutcome.resolved 7)) := by
  decide

/-- C8 amended: for a matched response, the server side
(`NativeMessenger.handleMessage`) resolves with `data` iff `success` is
true and otherwise rejects with the error text (defaulting to "Unknown
error" when `error` is null or empty); the extension side
(`handleWebSocketMessage`) instead rejects iff the `error` field is a
non-empty string — ignoring `success` — and otherwise resolves with
`data`. -/
theorem settle_semantics (handlers : List String) (m : WireMsg)
    (hid : m.id ≠ "") (hmem : m.id ∈ handlers) :
    (m.success = true →
      nmHandleMessage handlers m
        = (handlers.erase m.id,
           HandleEffect.settled (SettleOutcome.resolved m.data))) ∧
    (m.success = false →
      nmHandleMessage handlers m
        = (handlers.erase m.id,
           HandleEffect.settled
             (SettleOutcome.rejected (jsOrError m.error "Unknown error")))) ∧
    (errTruthy m.error = false →
      handleWebSocketMessage handlers m
        = (handlers.erase m.id,
           ExtEffect.settled (SettleOutcome.resolved m.data))) ∧
    (errTruthy m.error = true →
      handleWebSocketMessage handlers m
        = (handlers.erase m.id,
           ExtEffect.settled
             (SettleOutcome.rejected (m.error.getD "")))) := by
  refine ⟨?_, ?_, ?_, ?_⟩ <;> intro h <;>
    simp [nmHandleMessage, handleWebSocketMessage, hid, hmem, h]

/-- Witness for C8 (amended): a successful matched response on the server
side resolves with its data. -/
theorem settle_semantics_witness :
    nmHandleMessage ["x1"] (WireMsg.mk "x1" true 7 none)
      = (["x1"].erase "x1",
         HandleEffect.settled (SettleOutcome.resolved 7)) :=
  (settle_semantics ["x1"] (WireMsg.mk "x1" true 7 none)
    (by decide) (by decide)).1 rfl

/-- C9: `wss.on("connection")` stores the new socket unconditionally,
every socket's close handler nulls the stored socket unconditionally, and
hence after accepting socket 1, then socket 2, the close of socket 1 makes
`isExtensionConnected()` return false although socket 2 is still open. -/
theorem stale_close_disconnects_server :
    (∀ (s : WSServerState) (ws : Nat),
        (acceptConnection s ws).extensionSocket = some ws) ∧
    (∀ (s : WSServerState) (ws : Nat),
        (socketClosed s ws).extensionSocket = none) ∧
    isExtensionConnected
        (socketClosed (acceptConnection (acceptConnection wssInit 1) 2) 1)
      = false ∧
    2 ∈ (socketClosed (acceptConnection (acceptConnection wssInit 1) 2) 1).openSockets := by
  refine ⟨fun s ws => rfl, fun s ws => rfl, by decide, by decide⟩

/-- C10: a command issued while disconnected is queued (not sent); its
timeout then removes the handler entry and rejects the future without
touching the outbound queue; the subsequent `onopen` drain still transmits
the message to the server, after its future has already been rejected. -/
theorem timed_out_queued_command_still_sent (m : Msg) :
    (sendCommandToServer extInit m).sent = [] ∧
    (sendCommandToServer extInit m).queue = [m] ∧
    (commandTimeout (sendCommandToServer extInit m) m.id).rejectedIds = [m.id] ∧
    (commandTimeout (sendCommandToServer extInit m) m.id).handlers = [] ∧
    (commandTimeout (sendCommandToServer extInit m) m.id).queue = [m] ∧
    (wsOnOpen (commandTimeout (sendCommandToServer extInit m) m.id)).sent = [m] := by
  have hsend : sendCommandToServer extInit m
      = ExtClient.mk false false [m] [m.id] [] [] 1 := by
    rw [sendCommandToServer]
    simp [extInit]
  have htime : commandTimeout (ExtClient.mk false false [m] [m.id] [] [] 1) m.id
      = ExtClient.mk false false [m] [] [] [m.id] 1 := by
    rw [commandTimeout]
    simp
  rw [hsend, htime]
  refine ⟨rfl, rfl, rfl, rfl, rfl, ?_⟩
  rw [wsOnOpen]
  simp [drainQueue_all]

end ChromePilot
